import Mathlib

/-!
# The webgazer extension of jsPsych

A shallow embedding of `src/extensions/jspsych-ext-webgazer.js`.

* The private `state` object is the record `State`; a field that has not been
  assigned yet (`undefined`) is `none`.
* The external engine (`state.webgazer`) is an opaque collaborator: the commands it
  receives are appended to `World.engine`, tagged with the identity of the engine
  object that received them.
* Numbers coming from the engine, the DOM and the clock are finite and are rationals;
  `Math.round` is `⌊x + 1/2⌋` (nearest integer, ties towards `+∞`).  The only `NaN` the
  file can produce itself (subtracting an `undefined` trial start) is `JSNumber.NaN`.
* A function of the program may throw: an `Outcome` holds the completion (a value or
  the thrown error) together with the world at that point, because assignments made
  before a throw persist.
* Gaze observers are functions identified by a `Callback` identity (`!==` compares
  identities).  What an observer does when it is called is given by `body`: the list of
  callbacks whose unregistration closures (returned by `onGazeUpdate`) it calls.  This
  is the only way an observer acts on the extension here: an observer that throws,
  registers observers or calls other functions of the extension is not modelled.
-/

namespace Webgazer

/-- Identity of an engine object (`window.webgazer` or `params.webgazer`). -/
abbrev Handle := Nat

/-- Identity of a callback function. -/
abbrev Callback := Nat

/-- The result of `Math.round(performance.now() - state.currentTrialStart)`. -/
inductive JSNumber where
  | num (q : ℚ)
  | NaN
  deriving DecidableEq, Repr

/-- The raw estimate `gazeData` handed to the gaze listener (when it is not `null`). -/
structure GazeData where
  x : ℚ
  y : ℚ
  deriving DecidableEq, Repr

/-- The object `d` built by `handleGazeDataUpdate`; `t` is present only when the
sample was taken during an active trial. -/
structure Sample where
  x : ℚ
  y : ℚ
  t : Option JSNumber
  deriving DecidableEq, Repr

/-- What `getBoundingClientRect()` returns, as far as the extension reads it. -/
structure DOMRect where
  top : ℚ
  bottom : ℚ
  left : ℚ
  right : ℚ
  deriving DecidableEq, Repr

/-- An entry of `state.currentTrialTargets`. -/
structure Target where
  selector : String
  top : ℚ
  bottom : ℚ
  left : ℚ
  right : ℚ
  deriving DecidableEq, Repr

/-- The commands the extension sends to the engine. -/
inductive Command where
  | setGazeListener
  | begin
  | pause
  | resume
  | clearData
  | showVideo (b : Bool)
  | showFaceOverlay (b : Bool)
  | showFaceFeedbackBox (b : Bool)
  | showPredictionPoints (b : Bool)
  | removeMouseEventListeners
  | addMouseEventListeners
  | recordScreenPosition (x y : ℚ)
  | setRegression (regression_type : String)
  deriving DecidableEq, Repr

/-- Errors that the modelled code can throw or reject with. -/
inductive JSError where
  | TypeError
  | webgazerNotLoaded
  | engineFailure
  deriving DecidableEq, Repr

/-- The state of the promise returned by `initialize`. -/
inductive Promise where
  | pending
  | resolved
  | rejected (e : JSError)
  deriving DecidableEq, Repr

/-- The private `state` object. -/
structure State where
  webgazer : Option Handle
  initialized : Option Bool
  activeTrial : Option Bool
  round_predictions : Option Bool
  gazeUpdateCallbacks : Option (List Callback)
  currentTrialStart : Option ℚ
  currentTrialData : Option (List Sample)
  currentTrialTargets : Option (List Target)
  currentGaze : Option (Option Sample)
  deriving DecidableEq, Repr

/-- The `state` object of a fresh extension instance: `{}`. -/
def State.fresh : State :=
  { webgazer := none, initialized := none, activeTrial := none, round_predictions := none,
    gazeUpdateCallbacks := none, currentTrialStart := none, currentTrialData := none,
    currentTrialTargets := none, currentGaze := none }

/-- The extension state together with what the outside has observed of it: the commands
received by the engine, the console warnings, and the observer calls made. -/
structure World where
  state : State
  engine : List (Handle × Command)
  console : List String
  delivered : List (Callback × Sample)
  deriving DecidableEq, Repr

/-- A completion: the value returned or the error thrown, and the world reached. -/
structure Outcome (α : Type) where
  result : Except JSError α
  world : World

/-- Truthiness of a possibly undefined boolean field. -/
def truthy : Option Bool → Bool
  | some true => true
  | _ => false

/-- JavaScript `Math.round` on a finite number. -/
def Math_round (x : ℚ) : ℤ := ⌊x + 1 / 2⌋

/-- The parameters of `initialize`, read by the code. -/
structure InitParams where
  round_predictions : Option Bool
  auto_initialize : Option Bool
  webgazer : Option Handle
  deriving DecidableEq, Repr

/-- Settling a promise: only the first `resolve` or `reject` has an effect. -/
def Promise.settle (p : Promise) (r : Promise) : Promise :=
  match p with
  | .pending => r
  | _ => p

/-- The three calls of `extension.hideVideo` followed by the one of
`extension.hidePredictions`, received by engine `h`. -/
def hideDefaults (h : Handle) : List (Handle × Command) :=
  [(h, .showVideo false), (h, .showFaceOverlay false), (h, .showFaceFeedbackBox false),
   (h, .showPredictionPoints false)]

/-- The synchronous part of `extension.initialize(params)`: the promise executor.
`window_webgazer` is the global binding `window.webgazer` when it is truthy.  With
`auto_initialize` the promise is left to the engine's `begin()`. -/
def extension.initialize (params : InitParams) (window_webgazer : Option Handle)
    (w : World) : Promise × World :=
  let round_predictions := params.round_predictions.getD true
  let auto_initialize := params.auto_initialize.getD false
  let resolution : Promise × World :=
    match params.webgazer with
    | none =>
      match window_webgazer with
      | some h => (Promise.pending, { w with state := { w.state with webgazer := some h } })
      | none => (Promise.rejected JSError.webgazerNotLoaded, w)
    | some h => (Promise.pending, { w with state := { w.state with webgazer := some h } })
  let p := resolution.1
  let w1 := resolution.2
  match w1.state.webgazer with
  | none => (p.settle (Promise.rejected JSError.TypeError), w1)
  | some h =>
    let w2 : World :=
      { w1 with
        state := { w1.state with
          initialized := some false, activeTrial := some false,
          round_predictions := some round_predictions, gazeUpdateCallbacks := some [] },
        engine := w1.engine ++ (h, Command.setGazeListener) :: hideDefaults h }
    if auto_initialize then (p, { w2 with engine := w2.engine ++ [(h, Command.begin)] })
    else (p.settle Promise.resolved, w2)

/-- The continuation run when the engine's `begin()` resolves (used by `initialize` with
`auto_initialize` and by `start`). -/
def beginResolved (p : Promise) (w : World) : Promise × World :=
  let w1 : World := { w with state := { w.state with initialized := some true } }
  match w1.state.webgazer with
  | none => (p.settle (Promise.rejected JSError.TypeError), w1)
  | some h =>
    (p.settle Promise.resolved,
     { w1 with engine := w1.engine ++ [(h, Command.removeMouseEventListeners), (h, Command.pause)] })

/-- The continuation run when the engine's `begin()` rejects. -/
def beginRejected (p : Promise) (w : World) : Promise × World :=
  (p.settle (Promise.rejected JSError.engineFailure), w)

/-- The function `extension.on_start`. -/
def extension.on_start (w : World) : World :=
  { w with state := { w.state with currentTrialData := some [], currentTrialTargets := some [] } }

/-- The parameters of `on_load`, read by the code. -/
structure TrialParams where
  targets : Option (List String)
  deriving DecidableEq, Repr

/-- The loop of `extension.on_load` over `params.targets`, from the current index on. -/
def recordTargets (querySelector : String → Option DOMRect) :
    List String → World → Outcome Unit
  | [], w => ⟨.ok (), w⟩
  | selector :: rest, w =>
    match querySelector selector with
    | none => recordTargets querySelector rest w
    | some bounding_rect =>
      match w.state.currentTrialTargets with
      | none => ⟨.error JSError.TypeError, w⟩
      | some targets =>
        recordTargets querySelector rest
          { w with state := { w.state with
              currentTrialTargets := some (targets ++
                [{ selector := selector, top := bounding_rect.top,
                   bottom := bounding_rect.bottom, left := bounding_rect.left,
                   right := bounding_rect.right }]) } }

/-- The function `extension.on_load(params)`, called when `performance.now()` is `now`
and `document.querySelector` is `querySelector`. -/
def extension.on_load (params : Option TrialParams) (now : ℚ)
    (querySelector : String → Option DOMRect) (w : World) : Outcome Unit :=
  let w1 : World := { w with state := { w.state with currentTrialStart := some now } }
  match w1.state.webgazer with
  | none => ⟨.error JSError.TypeError, w1⟩
  | some h =>
    let w2 : World :=
      { w1 with
        state := { w1.state with activeTrial := some true },
        engine := w1.engine ++ [(h, Command.resume)] }
    match params with
    | none => ⟨.ok (), w2⟩
    | some params =>
      match params.targets with
      | none => ⟨.ok (), w2⟩
      | some targets => recordTargets querySelector targets w2

/-- The literal `valid_regression_models` of `extension.setRegressionType`. -/
def valid_regression_models : List String := ["ridge", "weigthedRidge", "threadedRidge"]

/-- The text of the warning of `extension.setRegressionType`. -/
def regressionWarning : String :=
  "Invalid regression_type parameter for webgazer.setRegressionType. Valid options are ridge, weightedRidge, and threadedRidge."

/-- The function `extension.setRegressionType(regression_type)`. -/
def extension.setRegressionType (regression_type : String) (w : World) : Outcome Unit :=
  if valid_regression_models.contains regression_type then
    match w.state.webgazer with
    | none => ⟨.error JSError.TypeError, w⟩
    | some h => ⟨.ok (), { w with engine := w.engine ++ [(h, Command.setRegression regression_type)] }⟩
  else
    ⟨.ok (), { w with console := w.console ++ [regressionWarning] }⟩

/-- The function `extension.getCurrentPrediction`. -/
def extension.getCurrentPrediction (w : World) : Option (Option Sample) :=
  w.state.currentGaze

/-- The array left by `state.gazeUpdateCallbacks.filter(item => item !== callback)`. -/
def removeCallback (callback : Callback) (callbacks : List Callback) : List Callback :=
  callbacks.filter (fun item => item != callback)

/-- The closure returned by `extension.onGazeUpdate(callback)`. -/
def unregister (callback : Callback) (w : World) : Outcome Unit :=
  match w.state.gazeUpdateCallbacks with
  | none => ⟨.error JSError.TypeError, w⟩
  | some callbacks =>
    ⟨.ok (), { w with state := { w.state with
                 gazeUpdateCallbacks := some (removeCallback callback callbacks) } }⟩

/-- The function `extension.onGazeUpdate(callback)`; it returns the unregistration
closure. -/
def extension.onGazeUpdate (callback : Callback) (w : World) :
    Outcome (World → Outcome Unit) :=
  match w.state.gazeUpdateCallbacks with
  | none => ⟨.error JSError.TypeError, w⟩
  | some callbacks =>
    ⟨.ok (unregister callback),
     { w with state := { w.state with gazeUpdateCallbacks := some (callbacks ++ [callback]) } }⟩

/-- The effect on `state.gazeUpdateCallbacks` of an observer that calls the
unregistration closures of `ids`, one after the other. -/
def runBody (ids : List Callback) (callbacks : List Callback) : List Callback :=
  ids.foldl (fun acc c => removeCallback c acc) callbacks

/-- The loop `for (var i = 0; i < state.gazeUpdateCallbacks.length; i++)` of
`handleGazeDataUpdate`, from index `i` on: the array is read again at every step, so
what observer `i` did to it is seen by the rest of the loop.  Returns the final array
and `called` extended with the observers called, in call order. -/
def broadcast (body : Callback → List Callback) (i : Nat) (callbacks : List Callback)
    (called : List Callback) : List Callback × List Callback :=
  if h : i < callbacks.length then
    broadcast body (i + 1) (runBody (body callbacks[i]) callbacks) (called ++ [callbacks[i]])
  else (callbacks, called)
termination_by callbacks.length - i
decreasing_by
  have shrink : ∀ (ids l : List Callback), (runBody ids l).length ≤ l.length := by
    intro ids
    induction ids with
    | nil => intro l; exact Nat.le_refl _
    | cons a t ih =>
      intro l
      exact Nat.le_trans (ih (removeCallback a l)) (List.length_filter_le _ _)
  have := shrink (body callbacks[i]) callbacks
  omega

/-- The tail of `handleGazeDataUpdate` for a sample `d`: set `currentGaze`, then call
the observers. -/
def notify (body : Callback → List Callback) (d : Sample) (w : World) : Outcome Unit :=
  let w1 : World := { w with state := { w.state with currentGaze := some (some d) } }
  match w1.state.gazeUpdateCallbacks with
  | none => ⟨.error JSError.TypeError, w1⟩
  | some callbacks =>
    let r := broadcast body 0 callbacks []
    ⟨.ok (), { w1 with
               state := { w1.state with gazeUpdateCallbacks := some r.1 },
               delivered := w1.delivered ++ r.2.map (fun c => (c, d)) }⟩

/-- The value `Math.round(performance.now() - state.currentTrialStart)`. -/
def elapsed (now : ℚ) (currentTrialStart : Option ℚ) : JSNumber :=
  match currentTrialStart with
  | none => JSNumber.NaN
  | some start => JSNumber.num (Math_round (now - start))

/-- The coordinate stored in the sample for the raw coordinate `v`. -/
def coordinate (round_predictions : Option Bool) (v : ℚ) : ℚ :=
  if truthy round_predictions then (Math_round v : ℚ) else v

/-- The gaze listener `handleGazeDataUpdate(gazeData, elapsedTime)`, called when
`performance.now()` is `now`; `gazeData = none` is `null`.  The argument `elapsedTime`
is not read by the code. -/
def handleGazeDataUpdate (body : Callback → List Callback) (gazeData : Option GazeData)
    (now : ℚ) (w : World) : Outcome Unit :=
  match gazeData with
  | some g =>
    let d : Sample :=
      { x := coordinate w.state.round_predictions g.x,
        y := coordinate w.state.round_predictions g.y,
        t := none }
    if truthy w.state.activeTrial then
      let d : Sample := { d with t := some (elapsed now w.state.currentTrialStart) }
      match w.state.currentTrialData with
      | none => ⟨.error JSError.TypeError, w⟩
      | some data =>
        notify body d { w with state := { w.state with currentTrialData := some (data ++ [d]) } }
    else notify body d w
  | none => ⟨.ok (), { w with state := { w.state with currentGaze := some none } }⟩

/-- A fresh extension instance in a page where nothing has happened yet. -/
def freshWorld : World := { state := State.fresh, engine := [], console := [], delivered := [] }

/-- The world after `initialize({webgazer: 0})` on a fresh instance. -/
def readyWorld : World := ( extension.initialize ⟨none, none, some 0⟩ none freshWorld).2

/-- The world after `initialize({webgazer: 0, round_predictions: false})` on a fresh
instance. -/
def unroundedWorld : World := ( extension.initialize ⟨some false, none, some 0⟩ none freshWorld).2

/-- The entry of `currentTrialTargets` for a selector: the bounding box of the element
it matches, if it matches one. -/
def matchedTarget (querySelector : String → Option DOMRect) (selector : String) :
    Option Target :=
  (querySelector selector).map fun r =>
    { selector := selector, top := r.top, bottom := r.bottom, left := r.left, right := r.right }

/-- A page with one element, matched by the selector `#target`. -/
def onePage : String → Option DOMRect :=
  fun selector => if selector = "#target" then some ⟨10, 30, 5, 45⟩ else none

/-- An observer behaviour: observer `0` calls its own unregistration closure when it is
called; every other observer changes nothing. -/
def selfRemoving : Callback → List Callback :=
  fun c => if c = 0 then [0] else []

/-- The world after `initialize({webgazer: 0})` and the registrations
`onGazeUpdate(0)`, `onGazeUpdate(1)`, in this order. -/
def twoObservers : World :=
  ( extension.onGazeUpdate 1 ( extension.onGazeUpdate 0 readyWorld).world).world

/-- The world after `initialize({webgazer: 0})` and the registrations
`onGazeUpdate(0)`, `onGazeUpdate(1)`, `onGazeUpdate(2)`, in this order. -/
def threeObservers : World := ( extension.onGazeUpdate 2 twoObservers).world

/-! ## Basic facts -/

theorem Math_round_le (x : ℚ) : ((Math_round x : ℤ) : ℚ) ≤ x + 1 / 2 := by
  unfold Math_round
  exact Int.floor_le _

theorem Math_round_gt (x : ℚ) : x - 1 / 2 < ((Math_round x : ℤ) : ℚ) := by
  unfold Math_round
  have := Int.lt_floor_add_one (x + 1 / 2)
  linarith

theorem Math_round_10_6 : Math_round (106 / 10) = 11 := by
  unfold Math_round
  rw [Int.floor_eq_iff]
  norm_num

theorem Math_round_20_4 : Math_round (204 / 10) = 20 := by
  unfold Math_round
  rw [Int.floor_eq_iff]
  norm_num

/-- The value of `Math.round` is an integer nearest to its argument. -/
theorem Math_round_nearest (x : ℚ) (k : ℤ) :
    |((Math_round x : ℤ) : ℚ) - x| ≤ |(k : ℚ) - x| := by
  have h1 := Math_round_le x
  have h2 := Math_round_gt x
  have hm : |((Math_round x : ℤ) : ℚ) - x| ≤ 1 / 2 := by
    rw [abs_le]; constructor <;> linarith
  rcases lt_trichotomy k (Math_round x) with hk | hk | hk
  · have : (k : ℚ) + 1 ≤ ((Math_round x : ℤ) : ℚ) := by exact_mod_cast hk
    have : 1 / 2 ≤ |(k : ℚ) - x| := by
      rw [le_abs]; right; linarith
    linarith
  · rw [hk]
  · have : ((Math_round x : ℤ) : ℚ) + 1 ≤ (k : ℚ) := by exact_mod_cast hk
    have : 1 / 2 ≤ |(k : ℚ) - x| := by
      rw [le_abs]; left; linarith
    linarith

theorem notify_currentGaze (body : Callback → List Callback) (d : Sample) (w : World) :
    (notify body d w).world.state.currentGaze = some (some d) := by
  unfold notify
  cases h : w.state.gazeUpdateCallbacks <;> simp [h]

/-- The sample stored by the gaze listener for a non-null estimate, whenever the push
onto the trial buffer cannot fail. -/
theorem handleGazeDataUpdate_currentGaze (body : Callback → List Callback) (g : GazeData)
    (now : ℚ) (w : World)
    (hdata : w.state.activeTrial = some true → w.state.currentTrialData ≠ none) :
    ∃ t, (handleGazeDataUpdate body (some g) now w).world.state.currentGaze =
      some (some { x := coordinate w.state.round_predictions g.x,
                   y := coordinate w.state.round_predictions g.y, t := t }) := by
  unfold handleGazeDataUpdate
  by_cases ha : truthy w.state.activeTrial = true
  · have hact : w.state.activeTrial = some true := by
      rcases hv : w.state.activeTrial with _ | b
      · simp [hv, truthy] at ha
      · cases b <;> simp_all [truthy]
    obtain ⟨data, hd⟩ := Option.ne_none_iff_exists'.mp (hdata hact)
    refine ⟨some (elapsed now w.state.currentTrialStart), ?_⟩
    simp only [ha, if_true, hd]
    exact notify_currentGaze _ _ _
  · refine ⟨none, ?_⟩
    simp only [ha]
    exact notify_currentGaze _ _ _

theorem truthy_eq_true_iff {b : Option Bool} : truthy b = true ↔ b = some true := by
  rcases b with _ | b
  · simp [truthy]
  · cases b <;> simp [truthy]

theorem runBody_length_le (ids callbacks : List Callback) :
    (runBody ids callbacks).length ≤ callbacks.length := by
  induction ids generalizing callbacks with
  | nil => simp [runBody]
  | cons a t ih =>
    simp only [runBody, List.foldl_cons]
    exact le_trans (ih _) (List.length_filter_le _ _)

/-- What the gaze listener does with a non-null estimate when the push onto the trial
buffer cannot fail and the observer array exists. -/
theorem handleGazeDataUpdate_some (body : Callback → List Callback) (g : GazeData)
    (now : ℚ) (w : World) (callbacks : List Callback)
    (hdata : w.state.activeTrial = some true → w.state.currentTrialData ≠ none)
    (hcbs : w.state.gazeUpdateCallbacks = some callbacks) :
    ∃ d : Sample,
      (handleGazeDataUpdate body (some g) now w).result = .ok () ∧
      (handleGazeDataUpdate body (some g) now w).world.state.currentGaze = some (some d) ∧
      (handleGazeDataUpdate body (some g) now w).world.state.gazeUpdateCallbacks =
        some (broadcast body 0 callbacks []).1 ∧
      (handleGazeDataUpdate body (some g) now w).world.delivered =
        w.delivered ++ (broadcast body 0 callbacks []).2.map (fun c => (c, d)) := by
  unfold handleGazeDataUpdate
  by_cases ha : truthy w.state.activeTrial = true
  · obtain ⟨data, hd⟩ := Option.ne_none_iff_exists'.mp (hdata (truthy_eq_true_iff.mp ha))
    refine ⟨{ x := coordinate w.state.round_predictions g.x,
              y := coordinate w.state.round_predictions g.y,
              t := some (elapsed now w.state.currentTrialStart) }, ?_, ?_, ?_, ?_⟩ <;>
      simp only [ha, if_true, hd, notify, hcbs]
  · refine ⟨{ x := coordinate w.state.round_predictions g.x,
              y := coordinate w.state.round_predictions g.y,
              t := none }, ?_, ?_, ?_, ?_⟩ <;>
      simp only [ha, notify, hcbs] <;> rfl

theorem readyWorld_eq :
    readyWorld =
      { state :=
          { webgazer := some 0, initialized := some false, activeTrial := some false,
            round_predictions := some true, gazeUpdateCallbacks := some [],
            currentTrialStart := none, currentTrialData := none,
            currentTrialTargets := none, currentGaze := none },
        engine := (0, Command.setGazeListener) :: hideDefaults 0,
        console := [], delivered := [] } := by
  simp [readyWorld, extension.initialize, freshWorld, State.fresh, Promise.settle]

theorem unroundedWorld_eq :
    unroundedWorld = { readyWorld with
      state := { readyWorld.state with round_predictions := some false } } := by
  simp [unroundedWorld, readyWorld_eq, extension.initialize, freshWorld, State.fresh,
    Promise.settle]

theorem twoObservers_eq :
    twoObservers = { readyWorld with
      state := { readyWorld.state with gazeUpdateCallbacks := some [0, 1] } } := by
  simp [twoObservers, extension.onGazeUpdate, readyWorld_eq]

theorem threeObservers_eq :
    threeObservers = { readyWorld with
      state := { readyWorld.state with gazeUpdateCallbacks := some [0, 1, 2] } } := by
  simp [threeObservers, twoObservers_eq, extension.onGazeUpdate, readyWorld_eq]

/-- The loop over `[a, b, c]` when `a` unregisters itself: `a` is called, the array
becomes `[b, c]`, and index `1` then holds `c`. -/
theorem broadcast_self_removing (body : Callback → List Callback) (a b c : Callback)
    (hbody : body a = [a]) (hab : a ≠ b) (hac : a ≠ c) :
    broadcast body 0 [a, b, c] [] = (runBody (body c) [b, c], [a, c]) := by
  have h1 : runBody (body a) [a, b, c] = [b, c] := by
    simp [hbody, runBody, removeCallback, hab.symm, hac.symm]
  have h2 := runBody_length_le (body c) [b, c]
  rw [broadcast, dif_pos (by simp)]
  simp only [List.getElem_cons_zero, h1, List.nil_append]
  rw [broadcast, dif_pos (by simp)]
  simp only [List.getElem_cons_succ, List.getElem_cons_zero]
  rw [broadcast, dif_neg (by simp at h2 ⊢; omega)]
  simp

theorem recordTargets_eq (querySelector : String → Option DOMRect) :
    ∀ (selectors : List String) (w : World) (targets : List Target),
      w.state.currentTrialTargets = some targets →
      recordTargets querySelector selectors w =
        ⟨.ok (), { w with state := { w.state with
          currentTrialTargets :=
            some (targets ++ selectors.filterMap (matchedTarget querySelector)) } }⟩ := by
  intro selectors
  induction selectors with
  | nil =>
    intro w targets h
    simp [recordTargets, ← h]
  | cons selector rest ih =>
    intro w targets h
    rcases hq : querySelector selector with _ | r
    · simp only [recordTargets, hq]
      rw [ih w targets h]
      simp [matchedTarget, hq]
    · simp only [recordTargets, hq, h]
      rw [ih _ (targets ++ [⟨selector, r.top, r.bottom, r.left, r.right⟩]) rfl]
      simp [matchedTarget, hq]

/-- The world `on_load` leaves when the engine handle exists and the target list has been
reset. -/
theorem on_load_eq (params : Option TrialParams) (now : ℚ)
    (querySelector : String → Option DOMRect) (w : World) (h : Handle) (targets : List Target)
    (hw : w.state.webgazer = some h) (ht : w.state.currentTrialTargets = some targets) :
    extension.on_load params now querySelector w =
      ⟨.ok (), { w with
        state := { w.state with
          currentTrialStart := some now, activeTrial := some true,
          currentTrialTargets := some (targets ++
            ((params.bind TrialParams.targets).getD []).filterMap (matchedTarget querySelector)) },
        engine := w.engine ++ [(h, Command.resume)] }⟩ := by
  unfold extension.on_load
  rcases params with _ | ⟨_ | selectors⟩
  · simp [hw, ← ht]
  · simp [hw, ← ht]
  · simp only [hw]
    rw [recordTargets_eq querySelector selectors _ targets (by simpa using ht)]
    simp [hw]

/-- C6: for every state, a call of `handleGazeDataUpdate` with a null estimate completes
normally, sets `currentGaze` to null, leaves `currentTrialData` and the observer list
unchanged and calls no observer, whether or not a trial is active; indeed no other part
of the state, the engine or the console changes. -/
theorem handleGazeDataUpdate_null (body : Callback → List Callback) (now : ℚ) (w : World) :
    (handleGazeDataUpdate body none now w).result = .ok () ∧
    (handleGazeDataUpdate body none now w).world.state.currentGaze = some none ∧
    (handleGazeDataUpdate body none now w).world.state.currentTrialData =
      w.state.currentTrialData ∧
    (handleGazeDataUpdate body none now w).world.state.gazeUpdateCallbacks =
      w.state.gazeUpdateCallbacks ∧
    (handleGazeDataUpdate body none now w).world.delivered = w.delivered ∧
    (handleGazeDataUpdate body none now w).world =
      { w with state := { w.state with currentGaze := some none } } := by
  simp [handleGazeDataUpdate]

/-- C4: for every non-null raw estimate `(x, y)` (in a state where the push onto the trial
buffer cannot fail), the sample built by `handleGazeDataUpdate` and stored in `currentGaze`
has, when `round_predictions` is true, integer `x` and `y`, each an integer nearest to the
input coordinate, and, when `round_predictions` is false, `x` and `y` equal to the input
coordinates. -/
theorem handleGazeDataUpdate_rounding (body : Callback → List Callback) (g : GazeData)
    (now : ℚ) (w : World)
    (hdata : w.state.activeTrial = some true → w.state.currentTrialData ≠ none) :
    ∃ d : Sample,
      (handleGazeDataUpdate body (some g) now w).world.state.currentGaze = some (some d) ∧
      (w.state.round_predictions = some true →
        ∃ m n : ℤ, d.x = (m : ℚ) ∧ d.y = (n : ℚ) ∧
          (∀ k : ℤ, |(m : ℚ) - g.x| ≤ |(k : ℚ) - g.x|) ∧
          (∀ k : ℤ, |(n : ℚ) - g.y| ≤ |(k : ℚ) - g.y|)) ∧
      (w.state.round_predictions = some false → d.x = g.x ∧ d.y = g.y) := by
  obtain ⟨t, ht⟩ := handleGazeDataUpdate_currentGaze body g now w hdata
  refine ⟨_, ht, ?_, ?_⟩
  · intro hr
    refine ⟨Math_round g.x, Math_round g.y, ?_, ?_, Math_round_nearest g.x, Math_round_nearest g.y⟩
    · simp [coordinate, hr, truthy]
    · simp [coordinate, hr, truthy]
  · intro hr
    simp [coordinate, hr, truthy]

/-- Witness for C4: the default configuration, with the estimate `(2.5, -1.75)`. -/
theorem handleGazeDataUpdate_rounding_witness :
    (readyWorld.state.activeTrial = some true → readyWorld.state.currentTrialData ≠ none) ∧
    ∃ d : Sample,
      (handleGazeDataUpdate (fun _ => []) (some ⟨5 / 2, -7 / 4⟩) 0
        readyWorld).world.state.currentGaze = some (some d) ∧
      ∃ m n : ℤ, d.x = (m : ℚ) ∧ d.y = (n : ℚ) := by
  have hdata : readyWorld.state.activeTrial = some true →
      readyWorld.state.currentTrialData ≠ none := by
    simp [readyWorld_eq]
  obtain ⟨d, hd, hround, -⟩ :=
    handleGazeDataUpdate_rounding (fun _ => []) ⟨5 / 2, -7 / 4⟩ 0 readyWorld hdata
  obtain ⟨m, n, hm, hn, -⟩ := hround (by simp [readyWorld_eq])
  exact ⟨hdata, d, hd, m, n, hm, hn⟩

/-- C5, as stated, fails: with `round_predictions` true (the default), the estimate
`x = 10.6, y = 20.4` gives the sample `{x: 11, y: 20}`, not `{x: 10, y: 20}`. -/
theorem rounding_example_gives_11 :
    readyWorld.state.round_predictions = some true ∧
    (handleGazeDataUpdate (fun _ => []) (some ⟨106 / 10, 204 / 10⟩) 0
      readyWorld).world.state.currentGaze = some (some ⟨11, 20, none⟩) ∧
    (handleGazeDataUpdate (fun _ => []) (some ⟨106 / 10, 204 / 10⟩) 0
      readyWorld).world.state.currentGaze ≠ some (some ⟨10, 20, none⟩) := by
  have h : (handleGazeDataUpdate (fun _ => []) (some ⟨106 / 10, 204 / 10⟩) 0
      readyWorld).world.state.currentGaze = some (some ⟨11, 20, none⟩) := by
    simp [handleGazeDataUpdate, readyWorld, extension.initialize, freshWorld, State.fresh,
      truthy, notify, coordinate, Math_round_10_6, Math_round_20_4]
  refine ⟨by simp [readyWorld, extension.initialize, freshWorld, State.fresh], h, ?_⟩
  rw [h]
  simp

/-- C5, amended: for the raw estimate `x = 10.6, y = 20.4` (in a state where the push
onto the trial buffer cannot fail), `handleGazeDataUpdate` produces a sample with
`x = 11, y = 20` when `round_predictions` is true and with `x = 10.6, y = 20.4` when
`round_predictions` is false. -/
theorem handleGazeDataUpdate_10_6 (body : Callback → List Callback) (now : ℚ) (w : World)
    (hdata : w.state.activeTrial = some true → w.state.currentTrialData ≠ none) :
    ∃ d : Sample,
      (handleGazeDataUpdate body (some ⟨106 / 10, 204 / 10⟩) now w).world.state.currentGaze =
        some (some d) ∧
      (w.state.round_predictions = some true → d.x = 11 ∧ d.y = 20) ∧
      (w.state.round_predictions = some false → d.x = 106 / 10 ∧ d.y = 204 / 10) := by
  obtain ⟨t, ht⟩ := handleGazeDataUpdate_currentGaze body ⟨106 / 10, 204 / 10⟩ now w hdata
  refine ⟨_, ht, ?_, ?_⟩
  · intro hr
    simp [coordinate, hr, truthy, Math_round_10_6, Math_round_20_4]
  · intro hr
    simp [coordinate, hr, truthy]

/-- Witness for C5: the default configuration and the one with `round_predictions: false`. -/
theorem handleGazeDataUpdate_10_6_witness :
    (readyWorld.state.activeTrial = some true → readyWorld.state.currentTrialData ≠ none) ∧
    (unroundedWorld.state.activeTrial = some true →
      unroundedWorld.state.currentTrialData ≠ none) ∧
    (∃ d : Sample,
      (handleGazeDataUpdate (fun _ => []) (some ⟨106 / 10, 204 / 10⟩) 0
        readyWorld).world.state.currentGaze = some (some d) ∧ d.x = 11 ∧ d.y = 20) ∧
    (∃ d : Sample,
      (handleGazeDataUpdate (fun _ => []) (some ⟨106 / 10, 204 / 10⟩) 0
        unroundedWorld).world.state.currentGaze = some (some d) ∧
      d.x = 106 / 10 ∧ d.y = 204 / 10) := by
  have h1 : readyWorld.state.activeTrial = some true →
      readyWorld.state.currentTrialData ≠ none := by
    simp [readyWorld_eq]
  have h2 : unroundedWorld.state.activeTrial = some true →
      unroundedWorld.state.currentTrialData ≠ none := by
    simp [unroundedWorld_eq, readyWorld_eq]
  obtain ⟨d1, g1, r1, -⟩ := handleGazeDataUpdate_10_6 (fun _ => []) 0 readyWorld h1
  obtain ⟨d2, g2, -, r2⟩ := handleGazeDataUpdate_10_6 (fun _ => []) 0 unroundedWorld h2
  exact ⟨h1, h2, ⟨d1, g1, r1 (by simp [readyWorld_eq])⟩,
    ⟨d2, g2, r2 (by simp [unroundedWorld_eq])⟩⟩

/-- C3, the accepted names: `setRegressionType` checks the name against the literal
`['ridge', 'weigthedRidge', 'threadedRidge']`, so `weightedRidge`, which the warning text
lists as valid, is not forwarded to the engine (the call only warns), while the misspelt
`weigthedRidge` is accepted. -/
theorem setRegressionType_weightedRidge (w : World) :
    ( extension.setRegressionType "weightedRidge" w).world.engine = w.engine ∧
    ( extension.setRegressionType "weightedRidge" w).world.console =
      w.console ++ [regressionWarning] ∧
    ( extension.setRegressionType "weightedRidge" w).world.state = w.state ∧
    ( extension.setRegressionType "weightedRidge" w).result = .ok () ∧
    "weigthedRidge" ∈ valid_regression_models ∧
    "weightedRidge" ∉ valid_regression_models := by
  have h : valid_regression_models.contains "weightedRidge" = false := by decide
  refine ⟨?_, ?_, ?_, ?_, by decide, by decide⟩ <;>
    simp only [extension.setRegressionType, h] <;> simp

/-- C10: with observers `[a, b, c]` registered in that order, where `a` calls its own
unregistration function when called, one call of `handleGazeDataUpdate` with a non-null
sample calls `a` and `c` but not `b`, although `b` was registered when the sample
arrived: the loop reads the replaced array by index. -/
theorem handleGazeDataUpdate_skips_observer (body : Callback → List Callback)
    (a b c : Callback) (g : GazeData) (now : ℚ) (w : World)
    (hdata : w.state.activeTrial = some true → w.state.currentTrialData ≠ none)
    (hcbs : w.state.gazeUpdateCallbacks = some [a, b, c])
    (hbody : body a = [a]) (hab : a ≠ b) (hac : a ≠ c) (hbc : b ≠ c) :
    ∃ d : Sample,
      (handleGazeDataUpdate body (some g) now w).world.state.currentGaze = some (some d) ∧
      (handleGazeDataUpdate body (some g) now w).world.delivered =
        w.delivered ++ [(a, d), (c, d)] ∧
      (b, d) ∉ [(a, d), (c, d)] := by
  obtain ⟨d, -, hg, -, hd⟩ := handleGazeDataUpdate_some body g now w [a, b, c] hdata hcbs
  refine ⟨d, hg, ?_, ?_⟩
  · rw [hd, broadcast_self_removing body a b c hbody hab hac]
    simp
  · simp [hab.symm, hbc]

/-- Witness for C10: observers `0, 1, 2`, of which `0` unregisters itself. -/
theorem handleGazeDataUpdate_skips_observer_witness :
    threeObservers.state.gazeUpdateCallbacks = some [0, 1, 2] ∧
    selfRemoving 0 = [0] ∧
    ∃ d : Sample,
      (handleGazeDataUpdate selfRemoving (some ⟨3, 4⟩) 0 threeObservers).world.state.currentGaze =
        some (some d) ∧
      (handleGazeDataUpdate selfRemoving (some ⟨3, 4⟩) 0 threeObservers).world.delivered =
        threeObservers.delivered ++ [(0, d), (2, d)] ∧
      (1, d) ∉ [(0, d), (2, d)] :=
  ⟨by simp [threeObservers_eq], rfl,
   handleGazeDataUpdate_skips_observer selfRemoving 0 1 2 ⟨3, 4⟩ 0 threeObservers
     (by simp [threeObservers_eq, readyWorld_eq]) (by simp [threeObservers_eq])
     rfl (by decide) (by decide) (by decide)⟩

/-- C8: for every list of selectors `params.targets` and every DOM lookup, `on_load`
called right after `on_start` (on an extension whose engine handle exists) completes
normally and leaves `currentTrialTargets` equal to the list, in selector order, of the
`{selector, top, bottom, left, right}` records of exactly those selectors that match an
element; a selector matching no element contributes no entry. -/
theorem on_load_targets (w : World) (selectors : List String) (now : ℚ)
    (querySelector : String → Option DOMRect) (hw : w.state.webgazer ≠ none) :
    ( extension.on_load (some ⟨some selectors⟩) now querySelector
        ( extension.on_start w)).result = .ok () ∧
    ( extension.on_load (some ⟨some selectors⟩) now querySelector
        ( extension.on_start w)).world.state.currentTrialTargets =
      some (selectors.filterMap fun selector =>
        (querySelector selector).map fun r =>
          { selector := selector, top := r.top, bottom := r.bottom,
            left := r.left, right := r.right }) ∧
    ∀ selector, querySelector selector = none →
      ∀ entries, ( extension.on_load (some ⟨some selectors⟩) now querySelector
          ( extension.on_start w)).world.state.currentTrialTargets = some entries →
        ∀ entry ∈ entries, entry.selector ≠ selector := by
  obtain ⟨h, hh⟩ := Option.ne_none_iff_exists'.mp hw
  have hl := on_load_eq (some ⟨some selectors⟩) now querySelector ( extension.on_start w) h []
    (by simp [extension.on_start, hh]) (by simp [extension.on_start])
  have hm : matchedTarget querySelector = fun selector =>
      (querySelector selector).map fun r =>
        ({ selector := selector, top := r.top, bottom := r.bottom,
           left := r.left, right := r.right } : Target) := rfl
  rw [hl]
  refine ⟨rfl, by simp [hm], ?_⟩
  intro selector hnone entries hentries entry hentry
  simp only [List.nil_append, Option.some.injEq] at hentries
  rw [← hentries, List.mem_filterMap] at hentry
  obtain ⟨sel, -, hsel⟩ := hentry
  rcases hq : querySelector sel with _ | r
  · simp [matchedTarget, hq] at hsel
  · simp only [matchedTarget, hq, Option.map_some', Option.some.injEq] at hsel
    rw [← hsel]
    rintro rfl
    simp [hnone] at hq

/-- Witness for C8: a page where `#target` matches an element and `#missing` does not. -/
theorem on_load_targets_witness :
    readyWorld.state.webgazer ≠ none ∧
    ( extension.on_load (some ⟨some ["#missing", "#target"]⟩) 0 onePage
        ( extension.on_start readyWorld)).world.state.currentTrialTargets =
      some [⟨"#target", 10, 30, 5, 45⟩] := by
  have hw : readyWorld.state.webgazer ≠ none := by simp [readyWorld_eq]
  refine ⟨hw, ?_⟩
  rw [(on_load_targets readyWorld ["#missing", "#target"] 0 onePage hw).2.1]
  simp [onePage]

/-- C9: on a fresh extension instance, when the config supplies no webgazer handle and no
global engine binding exists, `initialize` rejects its promise with the
`webgazer.js not loaded` error, modifies no field of the extension state and issues no
engine command; when a handle is resolved (from the config, or else from the global
binding) and `auto_initialize` is not true, `initialize` resolves its promise with
`initialized = false` and `activeTrial = false`. -/
theorem initialize_outcomes (w : World) (round_predictions auto_initialize : Option Bool)
    (window_webgazer : Option Handle) (h0 : Handle) (supplied : Option Handle) :
    ( extension.initialize ⟨round_predictions, auto_initialize, none⟩ none
        { w with state := State.fresh }) =
      (Promise.rejected JSError.webgazerNotLoaded, { w with state := State.fresh }) ∧
    ( (supplied = some h0 ∨ (supplied = none ∧ window_webgazer = some h0)) →
      auto_initialize ≠ some true →
      ( extension.initialize ⟨round_predictions, auto_initialize, supplied⟩ window_webgazer
          w).1 = Promise.resolved ∧
      ( extension.initialize ⟨round_predictions, auto_initialize, supplied⟩ window_webgazer
          w).2.state.webgazer = some h0 ∧
      ( extension.initialize ⟨round_predictions, auto_initialize, supplied⟩ window_webgazer
          w).2.state.initialized = some false ∧
      ( extension.initialize ⟨round_predictions, auto_initialize, supplied⟩ window_webgazer
          w).2.state.activeTrial = some false) := by
  constructor
  · simp [ extension.initialize, State.fresh, Promise.settle]
  · intro hres hauto
    have ha : auto_initialize.getD false = false := by
      rcases auto_initialize with _ | b
      · rfl
      · cases b
        · rfl
        · exact absurd rfl hauto
    rcases hres with hs | ⟨hs, hwin⟩
    · simp [ extension.initialize, hs, ha, Promise.settle]
    · simp [ extension.initialize, hs, hwin, ha, Promise.settle]

/-- Witness for C9: a fresh instance without any engine, and one with the global engine
`7`. -/
theorem initialize_outcomes_witness :
    ( extension.initialize ⟨none, none, none⟩ none freshWorld) =
      (Promise.rejected JSError.webgazerNotLoaded, freshWorld) ∧
    ( extension.initialize ⟨none, some false, none⟩ (some 7) freshWorld).1 = Promise.resolved ∧
    ( extension.initialize ⟨none, some false, none⟩ (some 7) freshWorld).2.state.initialized =
      some false ∧
    ( extension.initialize ⟨none, some false, none⟩ (some 7) freshWorld).2.state.activeTrial =
      some false :=
  ⟨(initialize_outcomes freshWorld none none none 0 none).1,
   ((initialize_outcomes freshWorld none (some false) (some 7) 7 none).2
      (Or.inr ⟨rfl, rfl⟩) (by decide)).1,
   ((initialize_outcomes freshWorld none (some false) (some 7) 7 none).2
      (Or.inr ⟨rfl, rfl⟩) (by decide)).2.2.1,
   ((initialize_outcomes freshWorld none (some false) (some 7) 7 none).2
      (Or.inr ⟨rfl, rfl⟩) (by decide)).2.2.2⟩

/-- The function `on_start` always leaves an empty `currentTrialData` and an empty
`currentTrialTargets`, whatever the previous trial left, and changes nothing else. -/
theorem on_start_resets (w : World) :
    ( extension.on_start w).state.currentTrialData = some [] ∧
    ( extension.on_start w).state.currentTrialTargets = some [] ∧
    ( extension.on_start w) =
      { w with state := { w.state with
          currentTrialData := some [], currentTrialTargets := some [] } } := by
  simp [extension.on_start]

/-- The names `setRegressionType` forwards are exactly those of its literal list: for such
a name the engine (when there is one) receives `setRegression(name)` and nothing else
changes; for any other name only a warning is written. -/
theorem setRegressionType_forwards (name : String) (w : World) :
    (name ∈ ["ridge", "weigthedRidge", "threadedRidge"] →
      ( extension.setRegressionType name w).world =
        { w with engine := w.engine ++
            (w.state.webgazer.map fun h => (h, Command.setRegression name)).toList }) ∧
    (name ∉ ["ridge", "weigthedRidge", "threadedRidge"] →
      ( extension.setRegressionType name w) =
        ⟨.ok (), { w with console := w.console ++ [regressionWarning] }⟩) := by
  constructor
  · intro h
    have hc : valid_regression_models.contains name = true := by
      simpa [valid_regression_models] using h
    simp only [extension.setRegressionType, hc, if_true]
    rcases hw : w.state.webgazer with _ | handle <;> simp
  · intro h
    have hc : valid_regression_models.contains name = false := by
      simpa [valid_regression_models] using h
    simp only [extension.setRegressionType, hc]
    simp

end Webgazer
